import Mathlib

/-!
Verification of the results-exporter bridge service
(`examples/voting-webapp/results-exporter/app.py`).

The service keeps a single shared record `RESULTS = {"total": None,
"updated": datetime.utcnow()}`, mutated only by the socketio `scores`
event handler and read by two Flask routes (`/` and `/metrics`).

Embedding choices:
* Timestamps (`datetime.utcnow()`) are modelled as `Nat`; the wall clock
  advancing between two calls is an explicit hypothesis where a claim
  needs it.
* JSON values are a small AST `Json`; numbers are rationals.  The Python
  standard-library function `json.loads` is external library code, so the
  `scores` handler is parametrised by a loader
  `jsonLoads : String → Except String Json`; a parse failure is
  `Except.error`.
* A handler that raises (parse failure, unsummable values) is modelled by
  `Except.error`; `scoresRun` gives the resulting shared state, which on
  an error is the unchanged previous state, matching Python where the
  exception propagates before any assignment to `RESULTS`.
* The `/metrics` handler runs concurrently with the event handler, so its
  reads of `RESULTS` are modelled by an environment `env : Nat → ResultState`
  giving the shared state at the n-th read: read 0 is the baseline read
  `previous_update = RESULTS["updated"]`, reads 1, 2, … are the `while`
  loop condition checks, and the read after loop exit is `jsonify(RESULTS)`.
  The unbounded `while` loop is given fuel; `none` means the loop was still
  running after `fuel` iterations.
-/

/-- Shared mutable record `RESULTS`: `{"total": None, "updated": utcnow()}`. -/
structure ResultState where
  total : Option ℚ
  updated : Nat
deriving DecidableEq, Repr

/-- Startup value of `RESULTS`: `total = None`, `updated` = process start time. -/
def initialResults (startTime : Nat) : ResultState :=
  { total := none, updated := startTime }

/-- Default of the `RESULTS_HOST` environment variable. -/
def defaultResultsHost : String := "http://localhost:8080"

/-- The constant `SLEEP_LENGTH = 0.02` (seconds). -/
def SLEEP_LENGTH : ℚ := 1 / 50

/-- JSON values as produced by `json.loads`.  Numbers are rationals
(the payloads in question carry vote counts); `true`/`false` parse to
Python booleans, which Python's `sum` accepts as 1/0. -/
inductive Json where
  | null
  | bool (b : Bool)
  | num (q : ℚ)
  | str (s : String)
  | arr (elems : List Json)
  | obj (fields : List (String × Json))

/-- The numeric value Python's `sum` would use for one parsed JSON value:
numbers are themselves, booleans count as 1/0 (Python `bool` is an `int`
subclass), everything else makes `sum` raise `TypeError`. -/
def jsonNumVal : Json → Option ℚ
  | Json.num q => some q
  | Json.bool b => some (if b then 1 else 0)
  | _ => none

/-- Model of `sum(parsed.values())`: defined only when `parsed` is an object
(a Python `dict`; otherwise `.values()` raises `AttributeError`) all of
whose values are numeric (otherwise `sum` raises `TypeError`). -/
def sumValues : Json → Option ℚ
  | Json.obj fields => (fields.mapM fun kv => jsonNumVal kv.2).map List.sum
  | _ => none

/-- The `message` event handler: `print(welcome_msg)`; returns the unchanged
state together with the printed log lines. -/
def message (welcome_msg : String) (s : ResultState) : ResultState × List String :=
  (s, [welcome_msg])

/-- The `scores` event handler:
`parsed = json.loads(data)`, then
`RESULTS["total"] = sum(parsed.values())`, then
`RESULTS["updated"] = datetime.utcnow()` (modelled by `now`).
An exception anywhere leaves `RESULTS` unassigned and is `Except.error`. -/
def scores (jsonLoads : String → Except String Json) (data : String) (now : Nat)
    (s : ResultState) : Except String ResultState :=
  match jsonLoads data with
  | Except.error e => Except.error e
  | Except.ok parsed =>
    match sumValues parsed with
    | none => Except.error "TypeError: unsupported operand type"
    | some t => Except.ok { total := some t, updated := now }

/-- The shared state after the `scores` handler ran: the new state on
success, the untouched previous state when the handler raised. -/
def scoresRun (jsonLoads : String → Except String Json) (data : String) (now : Nat)
    (s : ResultState) : ResultState :=
  match scores jsonLoads data now s with
  | Except.ok s1 => s1
  | Except.error _ => s

/-- The socketio client state visible to the Flask routes. -/
structure AppState where
  connected : Bool
  results : ResultState
deriving DecidableEq, Repr

/-- The `GET /` route `status()`: `if sio.connected: sio.disconnect()`,
then `return "ok", 200`. -/
def status (a : AppState) : AppState × (String × Nat) :=
  if a.connected then ({ a with connected := false }, ("ok", 200))
  else (a, ("ok", 200))

/-- One externally observable step of the `metrics()` route. -/
inductive Step where
  | readBaseline (t : Nat)
  | connect (addr : String)
  | sleep (seconds : ℚ)
  | disconnect
deriving DecidableEq, Repr

/-- The `while RESULTS["updated"] == previous_update: time.sleep(SLEEP_LENGTH)`
loop: check `i` reads `env i`; returns the index of the first failing check,
or `none` when the fuel ran out with every check still equal. -/
def waitLoop (env : Nat → ResultState) (previous : Nat) : Nat → Nat → Option Nat
  | 0, _ => none
  | fuel + 1, i =>
    if (env i).updated = previous then waitLoop env previous fuel (i + 1)
    else some i

/-- The `GET /metrics` route `metrics()`.  Read 0 is
`previous_update = RESULTS["updated"]`; then `sio.connect(addr)`; then the
wait loop checks reads 1, 2, …, sleeping `SLEEP_LENGTH` after each check
that still equals the baseline; then `sio.disconnect()`; then
`jsonify(RESULTS)` reads the state one read after the failing check.
Returns the ordered step trace and the response body, or `none` when the
loop was still spinning after `fuel` checks. -/
def metrics (env : Nat → ResultState) (addr : String) (fuel : Nat) :
    Option (List Step × ResultState) :=
  let previous := (env 0).updated
  match waitLoop env previous fuel 1 with
  | none => none
  | some n =>
      some ([Step.readBaseline previous, Step.connect addr] ++
              List.replicate (n - 1) (Step.sleep SLEEP_LENGTH) ++ [Step.disconnect],
            env (n + 1))

/-- An event delivered by the socketio client, with the wall-clock time
`datetime.utcnow()` would return while handling it. -/
inductive SioEvent where
  | welcome (text : String)
  | score (payload : String) (now : Nat)

/-- Dispatch one socketio event to its handler. -/
def handleEvent (jsonLoads : String → Except String Json) (e : SioEvent)
    (s : ResultState) : ResultState :=
  match e with
  | SioEvent.welcome w => (message w s).1
  | SioEvent.score data now => scoresRun jsonLoads data now s

/-- Run a sequence of socketio events against the shared state. -/
def runEvents (jsonLoads : String → Except String Json) (evs : List SioEvent)
    (s : ResultState) : ResultState :=
  evs.foldl (fun s e => handleEvent jsonLoads e s) s

/-! ## Helper lemmas -/

/-- If the first baseline-breaking read in the window is `n`, the wait loop
started at `i` with enough fuel exits exactly at check `n`. -/
theorem waitLoop_finds (env : Nat → ResultState) (previous : Nat) :
    ∀ fuel i n, i ≤ n → n < i + fuel → (env n).updated ≠ previous →
      (∀ j, i ≤ j → j < n → (env j).updated = previous) →
      waitLoop env previous fuel i = some n := by
  intro fuel
  induction fuel with
  | zero => intro i n h1 h2 _ _; omega
  | succ fuel ih =>
    intro i n h1 h2 hn hall
    by_cases hi : (env i).updated = previous
    · have hin : i < n := by
        rcases Nat.lt_or_ge i n with h | h
        · exact h
        · exact absurd hi (le_antisymm h1 h ▸ hn)
      rw [waitLoop, if_pos hi]
      exact ih (i + 1) n hin (by omega) hn (fun j hj1 hj2 => hall j (by omega) hj2)
    · have : i = n := by
        by_contra hne
        exact hi (hall i le_rfl (lt_of_le_of_ne h1 hne))
      rw [waitLoop, if_neg hi, this]

/-- If every read equals the baseline, the wait loop never exits. -/
theorem waitLoop_spins (env : Nat → ResultState) (previous : Nat)
    (h : ∀ n, (env n).updated = previous) :
    ∀ fuel i, waitLoop env previous fuel i = none := by
  intro fuel
  induction fuel with
  | zero => intro i; rfl
  | succ fuel ih => intro i; rw [waitLoop, if_pos (h i)]; exact ih (i + 1)

/-- The `scores` handler never sets `total` back to `none`: on success it
writes `some`, on failure it leaves the state alone. -/
theorem scoresRun_total_isSome (jsonLoads : String → Except String Json)
    (data : String) (now : Nat) (s : ResultState) (h : s.total ≠ none) :
    (scoresRun jsonLoads data now s).total ≠ none := by
  unfold scoresRun scores
  cases hjl : jsonLoads data with
  | error e => simpa using h
  | ok parsed =>
    cases hsv : sumValues parsed with
    | none => simpa [hsv] using h
    | some t => simp [hsv]

/-- No socketio event handler sets `total` back to `none`. -/
theorem runEvents_total_isSome (jsonLoads : String → Except String Json)
    (evs : List SioEvent) :
    ∀ s : ResultState, s.total ≠ none → (runEvents jsonLoads evs s).total ≠ none := by
  induction evs with
  | nil => intro s h; exact h
  | cons e evs ih =>
    intro s h
    cases e with
    | welcome w => exact ih s h
    | score data now =>
        exact ih (scoresRun jsonLoads data now s)
          (scoresRun_total_isSome jsonLoads data now s h)

/-- Unfolding lemma: when `json.loads` raises, `scores` propagates the error. -/
theorem scores_loads_error (jsonLoads : String → Except String Json) (data : String)
    (now : Nat) (s : ResultState) (e : String)
    (hjl : jsonLoads data = Except.error e) :
    scores jsonLoads data now s = Except.error e := by
  unfold scores; rw [hjl]

/-- Unfolding lemma: when `json.loads` succeeds, `scores` is decided by
`sum(parsed.values())`. -/
theorem scores_loads_ok (jsonLoads : String → Except String Json) (data : String)
    (now : Nat) (s : ResultState) (parsed : Json)
    (hjl : jsonLoads data = Except.ok parsed) :
    scores jsonLoads data now s =
      (match sumValues parsed with
       | none => Except.error "TypeError: unsupported operand type"
       | some t => Except.ok { total := some t, updated := now }) := by
  unfold scores; rw [hjl]

/-! ## Claim theorems -/

/-- Claim C1: for every `scores` event whose string payload parses as a JSON
object mapping keys to numeric values, the handler sets `total` to the sum of
all the values and sets `updated` to the current time (which advances past the
previous timestamp when the wall clock has moved on). -/
theorem scores_sums_payload (jsonLoads : String → Except String Json)
    (data : String) (fields : List (String × Json)) (vals : List ℚ) (now : Nat)
    (s : ResultState)
    (hp : jsonLoads data = Except.ok (Json.obj fields))
    (hv : fields.mapM (fun kv => jsonNumVal kv.2) = some vals)
    (hclock : s.updated < now) :
    ∃ s1, scores jsonLoads data now s = Except.ok s1 ∧
      s1.total = some vals.sum ∧ s.updated < s1.updated := by
  refine ⟨{ total := some vals.sum, updated := now }, ?_, rfl, hclock⟩
  rw [scores_loads_ok _ _ _ _ _ hp,
    show sumValues (Json.obj fields) = some vals.sum from by
      show Option.map List.sum (fields.mapM fun kv => jsonNumVal kv.2) = some vals.sum
      rw [hv, Option.map_some']]

/-- Loader fixture: `json.loads` on the payload string from the spec example,
which parses to the object with entries a ↦ 2 and b ↦ 3. -/
def loadsAB : String → Except String Json :=
  fun _ => Except.ok (Json.obj [("a", Json.num 2), ("b", Json.num 3)])

/-- Witness for C1: on the spec's example payload, `total` becomes `5` and
`updated` advances from 0 to 1. -/
theorem scores_sums_payload_witness :
    ∃ s1, scores loadsAB "scores payload" 1 (initialResults 0) = Except.ok s1 ∧
      s1.total = some 5 ∧ (initialResults 0).updated < s1.updated := by
  obtain ⟨s1, h1, h2, h3⟩ :=
    scores_sums_payload loadsAB "scores payload"
      [("a", Json.num 2), ("b", Json.num 3)] [2, 3] 1 (initialResults 0) rfl rfl
      (by decide)
  exact ⟨s1, h1, by rw [h2]; norm_num [List.sum_cons, List.sum_nil], h3⟩

/-- Claim C3: every accepted score message strictly increases `updated`,
given that the wall clock has advanced past the stored timestamp. -/
theorem scores_updated_strictly_increases (jsonLoads : String → Except String Json)
    (data : String) (now : Nat) (s s1 : ResultState)
    (hacc : scores jsonLoads data now s = Except.ok s1)
    (hclock : s.updated < now) :
    s.updated < s1.updated := by
  cases hjl : jsonLoads data with
  | error e => rw [scores_loads_error _ _ _ _ _ hjl] at hacc; cases hacc
  | ok parsed =>
    rw [scores_loads_ok _ _ _ _ _ hjl] at hacc
    cases hsv : sumValues parsed with
    | none => rw [hsv] at hacc; cases hacc
    | some t =>
      rw [hsv] at hacc
      injection hacc with h2
      subst h2
      exact hclock

/-- Loader fixture: `json.loads` on the empty-object payload string. -/
def loadsEmpty : String → Except String Json :=
  fun _ => Except.ok (Json.obj [])

/-- Witness for C3: an accepted empty-object message at time 1 moves
`updated` strictly above its initial value 0. -/
theorem scores_updated_strictly_increases_witness :
    (initialResults 0).updated <
      (⟨some 0, 1⟩ : ResultState).updated :=
  scores_updated_strictly_increases loadsEmpty "scores payload" 1
    (initialResults 0) ⟨some 0, 1⟩ rfl (by decide)

/-- Claim C4: a `scores` event whose payload fails to parse makes the handler
raise and leaves the shared state completely unchanged. -/
theorem scores_malformed_payload (jsonLoads : String → Except String Json)
    (data : String) (e : String) (now : Nat) (s : ResultState)
    (hp : jsonLoads data = Except.error e) :
    scores jsonLoads data now s = Except.error e ∧
      scoresRun jsonLoads data now s = s := by
  have h1 := scores_loads_error jsonLoads data now s e hp
  exact ⟨h1, by unfold scoresRun; rw [h1]⟩

/-- Loader fixture: `json.loads` raising on a malformed payload string. -/
def loadsFail : String → Except String Json :=
  fun _ => Except.error "Expecting value: line 1 column 1"

/-- Witness for C4: a malformed payload raises and leaves the initial state
untouched. -/
theorem scores_malformed_payload_witness :
    scores loadsFail "not json" 9 (initialResults 0) =
        Except.error "Expecting value: line 1 column 1" ∧
      scoresRun loadsFail "not json" 9 (initialResults 0) = initialResults 0 :=
  scores_malformed_payload loadsFail "not json"
    "Expecting value: line 1 column 1" 9 (initialResults 0) rfl

/-- Claim C5: handling two accepted score messages in sequence leaves `total`
equal to the sum of the second payload only — the same state as handling just
the latest message — and the two recorded `updated` timestamps strictly
increase (wall clock advancing between the two events). -/
theorem scores_second_payload_wins (jsonLoads : String → Except String Json)
    (d1 d2 : String) (v1 v2 : Json) (t1 t2 : ℚ) (n1 n2 : Nat) (s : ResultState)
    (hp1 : jsonLoads d1 = Except.ok v1) (hs1 : sumValues v1 = some t1)
    (hp2 : jsonLoads d2 = Except.ok v2) (hs2 : sumValues v2 = some t2)
    (hclock : n1 < n2) :
    (scoresRun jsonLoads d2 n2 (scoresRun jsonLoads d1 n1 s)).total = some t2 ∧
      scoresRun jsonLoads d2 n2 (scoresRun jsonLoads d1 n1 s) =
        scoresRun jsonLoads d2 n2 s ∧
      (scoresRun jsonLoads d1 n1 s).updated <
        (scoresRun jsonLoads d2 n2 (scoresRun jsonLoads d1 n1 s)).updated := by
  have e1 : ∀ s0 : ResultState,
      scoresRun jsonLoads d1 n1 s0 = { total := some t1, updated := n1 } := by
    intro s0; unfold scoresRun; rw [scores_loads_ok _ _ _ _ _ hp1, hs1]
  have e2 : ∀ s0 : ResultState,
      scoresRun jsonLoads d2 n2 s0 = { total := some t2, updated := n2 } := by
    intro s0; unfold scoresRun; rw [scores_loads_ok _ _ _ _ _ hp2, hs2]
  refine ⟨by simp [e1, e2], by simp [e1, e2], ?_⟩
  simp only [e1, e2]
  exact hclock

/-- Claim C6: `GET /` always returns body `"ok"` with status 200, never
touches `RESULTS`, and leaves the client disconnected — disconnecting when it
was connected and doing nothing when it was not (a disconnected state already
equals its own disconnected form). -/
theorem status_disconnects_and_returns_ok (a : AppState) :
    status a = ({ connected := false, results := a.results }, ("ok", 200)) := by
  cases a with
  | mk c r => cases c <;> simp [status]

/-- Claim C8: a generic welcome `message` event only logs the message; both
fields of the shared state are unchanged. -/
theorem message_logs_only (welcome_msg : String) (s : ResultState) :
    (message welcome_msg s).1.total = s.total ∧
      (message welcome_msg s).1.updated = s.updated ∧
      (message welcome_msg s).2 = [welcome_msg] :=
  ⟨rfl, rfl, rfl⟩

/-- Claim C9: a payload that parses but is not an object of summable numeric
values (an array, or an object with a non-numeric value) makes the handler
raise before any assignment, leaving both fields of the state unchanged. -/
theorem scores_unsummable_payload (jsonLoads : String → Except String Json)
    (data : String) (v : Json) (now : Nat) (s : ResultState)
    (hp : jsonLoads data = Except.ok v) (hs : sumValues v = none) :
    (∃ e, scores jsonLoads data now s = Except.error e) ∧
      scoresRun jsonLoads data now s = s := by
  have h1 : scores jsonLoads data now s =
      Except.error "TypeError: unsupported operand type" := by
    rw [scores_loads_ok _ _ _ _ _ hp, hs]
  exact ⟨⟨_, h1⟩, by unfold scoresRun; rw [h1]⟩

/-- Loader fixture: `json.loads` on a payload that is a JSON array, for which
`.values()` raises `AttributeError`. -/
def loadsArr : String → Except String Json :=
  fun _ => Except.ok (Json.arr [Json.num 1, Json.num 2])

/-- Witness for C9: an array payload raises and leaves the initial state
untouched. -/
theorem scores_unsummable_payload_witness :
    (∃ e, scores loadsArr "scores payload" 4 (initialResults 0) = Except.error e) ∧
      scoresRun loadsArr "scores payload" 4 (initialResults 0) = initialResults 0 :=
  scores_unsummable_payload loadsArr "scores payload"
    (Json.arr [Json.num 1, Json.num 2]) 4 (initialResults 0) rfl rfl

/-- Claim C10: the empty JSON object payload is accepted: `total` becomes
`some 0` (non-null even with no votes reported) and `updated` advances; and
once a scores event has been accepted, no later sequence of events ever makes
`total` null again. -/
theorem scores_empty_object_total_zero (jsonLoads : String → Except String Json)
    (data : String) (now : Nat) (s : ResultState)
    (hp : jsonLoads data = Except.ok (Json.obj []))
    (hclock : s.updated < now) :
    scoresRun jsonLoads data now s = { total := some 0, updated := now } ∧
      s.updated < (scoresRun jsonLoads data now s).updated ∧
      ∀ evs : List SioEvent,
        (runEvents jsonLoads evs (scoresRun jsonLoads data now s)).total ≠ none := by
  have h1 : scoresRun jsonLoads data now s = { total := some 0, updated := now } := by
    unfold scoresRun
    rw [scores_loads_ok _ _ _ _ _ hp, show sumValues (Json.obj []) = some 0 from rfl]
  refine ⟨h1, by rw [h1]; exact hclock, ?_⟩
  intro evs
  rw [h1]
  exact runEvents_total_isSome jsonLoads evs _ (by simp)

/-- Witness for C10: accepting `\x7b\x7d` at time 2 from the initial state
gives `total = 0`, a later `updated`, and `total` stays non-null over a
sample later event sequence. -/
theorem scores_empty_object_total_zero_witness :
    scoresRun loadsEmpty "scores payload" 2 (initialResults 0) =
        { total := some 0, updated := 2 } ∧
      (initialResults 0).updated <
        (scoresRun loadsEmpty "scores payload" 2 (initialResults 0)).updated ∧
      ∀ evs : List SioEvent,
        (runEvents loadsEmpty evs
            (scoresRun loadsEmpty "scores payload" 2 (initialResults 0))).total ≠
          none :=
  scores_empty_object_total_zero loadsEmpty "scores payload" 2 (initialResults 0)
    rfl (by decide)

/-- Claim C2: a `/metrics` call records the current `updated` as baseline,
connects to the configured address, sleeps `SLEEP_LENGTH` per loop iteration
until the event handler moves `updated` past the baseline (first such read
`n`; all earlier checks still saw the baseline and each produced one sleep),
then disconnects and responds with the then-current shared state — provided
`updated` only ever moves forward (the handler is the only writer and stamps
fresh wall-clock times) and some message does arrive within the fuel. -/
theorem metrics_waits_then_responds (env : Nat → ResultState) (addr : String)
    (fuel : Nat)
    (hmono : ∀ i j, i ≤ j → (env i).updated ≤ (env j).updated)
    (hchange : ∃ m, 1 ≤ m ∧ m ≤ fuel ∧ (env m).updated ≠ (env 0).updated) :
    ∃ n, 1 ≤ n ∧ n ≤ fuel ∧
      (∀ j, 1 ≤ j → j < n → (env j).updated = (env 0).updated) ∧
      (env 0).updated < (env n).updated ∧
      metrics env addr fuel =
        some ([Step.readBaseline (env 0).updated, Step.connect addr] ++
                List.replicate (n - 1) (Step.sleep SLEEP_LENGTH) ++ [Step.disconnect],
              env (n + 1)) := by
  obtain ⟨m, hm1, hmf, hmne⟩ := hchange
  have hex : ∃ k, 1 ≤ k ∧ (env k).updated ≠ (env 0).updated := ⟨m, hm1, hmne⟩
  obtain ⟨hn1, hnne⟩ := Nat.find_spec hex
  have hnm : Nat.find hex ≤ m := Nat.find_min' hex ⟨hm1, hmne⟩
  have hfirst : ∀ j, 1 ≤ j → j < Nat.find hex →
      (env j).updated = (env 0).updated := by
    intro j hj1 hjn
    by_contra hne
    exact Nat.find_min hex hjn ⟨hj1, hne⟩
  refine ⟨Nat.find hex, hn1, le_trans hnm hmf, hfirst, ?_, ?_⟩
  · exact lt_of_le_of_ne (hmono 0 (Nat.find hex) (Nat.zero_le _)) (Ne.symm hnne)
  · have hwl : waitLoop env (env 0).updated fuel 1 = some (Nat.find hex) :=
      waitLoop_finds env ((env 0).updated) fuel 1 (Nat.find hex) hn1 (by omega)
        hnne (fun j hj1 hj2 => hfirst j hj1 hj2)
    simp [metrics, hwl]

/-- Environment fixture for C2: the shared state is at its initial value for
reads 0 and 1, then a score message lands and every later read sees
`total = 5`, `updated = 7`. -/
def envW : Nat → ResultState :=
  fun i => if i ≤ 1 then { total := none, updated := 0 }
           else { total := some 5, updated := 7 }

/-- Witness for C2: with one sleep, the poll observes the change at check 2
and responds with the then-current state. -/
theorem metrics_waits_then_responds_witness :
    ∃ n, 1 ≤ n ∧ n ≤ 5 ∧
      (∀ j, 1 ≤ j → j < n → (envW j).updated = (envW 0).updated) ∧
      (envW 0).updated < (envW n).updated ∧
      metrics envW defaultResultsHost 5 =
        some ([Step.readBaseline (envW 0).updated, Step.connect defaultResultsHost] ++
                List.replicate (n - 1) (Step.sleep SLEEP_LENGTH) ++ [Step.disconnect],
              envW (n + 1)) :=
  metrics_waits_then_responds envW defaultResultsHost 5
    (by
      intro i j hij
      by_cases hi : i ≤ 1 <;> by_cases hj : j ≤ 1 <;> simp [envW, hi, hj] <;> omega)
    ⟨2, by norm_num [envW]⟩

/-- Claim C7: when no score message ever changes `updated` past the recorded
baseline, the `/metrics` wait loop never exits: for every amount of fuel the
call is still spinning, with no timeout, retry, or other bound. -/
theorem metrics_unbounded_wait (env : Nat → ResultState) (addr : String)
    (h : ∀ n, (env n).updated = (env 0).updated) (fuel : Nat) :
    metrics env addr fuel = none := by
  simp [metrics, waitLoop_spins env ((env 0).updated) h fuel 1]

/-- Environment fixture for C7: no upstream activity, the shared state never
changes. -/
def envIdle : Nat → ResultState :=
  fun _ => initialResults 3

/-- Witness for C7: with an idle upstream the poll is still spinning after
1000 checks. -/
theorem metrics_unbounded_wait_witness :
    metrics envIdle defaultResultsHost 1000 = none :=
  metrics_unbounded_wait envIdle defaultResultsHost (fun _ => rfl) 1000

/-- Loader fixture for C5: two different payload strings parsing to two score
objects with different sums (1 versus 5). -/
def loadsTwo : String → Except String Json :=
  fun d =>
    if d = "first" then Except.ok (Json.obj [("a", Json.num 1)])
    else Except.ok (Json.obj [("a", Json.num 2), ("b", Json.num 3)])

/-- Witness for C5: after the two events at times 5 and 6, `total` is the
second payload's sum 5 (not the cumulative 6), the state equals the one
reached by the second event alone, and the timestamps strictly increase. -/
theorem scores_second_payload_wins_witness :
    (scoresRun loadsTwo "second" 6
        (scoresRun loadsTwo "first" 5 (initialResults 0))).total = some 5 ∧
      scoresRun loadsTwo "second" 6
          (scoresRun loadsTwo "first" 5 (initialResults 0)) =
        scoresRun loadsTwo "second" 6 (initialResults 0) ∧
      (scoresRun loadsTwo "first" 5 (initialResults 0)).updated <
        (scoresRun loadsTwo "second" 6
          (scoresRun loadsTwo "first" 5 (initialResults 0))).updated :=
  scores_second_payload_wins loadsTwo "first" "second"
    (Json.obj [("a", Json.num 1)]) (Json.obj [("a", Json.num 2), ("b", Json.num 3)])
    1 5 5 6 (initialResults 0) rfl
    (by
      show Option.map List.sum
          ([("a", Json.num 1)].mapM fun kv => jsonNumVal kv.2) = some 1
      rw [show ([("a", Json.num 1)].mapM fun kv => jsonNumVal kv.2) =
          some [1] from rfl, Option.map_some']
      norm_num [List.sum_cons, List.sum_nil])
    rfl
    (by
      show Option.map List.sum
          ([("a", Json.num 2), ("b", Json.num 3)].mapM fun kv => jsonNumVal kv.2) =
        some 5
      rw [show ([("a", Json.num 2), ("b", Json.num 3)].mapM fun kv => jsonNumVal kv.2) =
          some [2, 3] from rfl, Option.map_some']
      norm_num [List.sum_cons, List.sum_nil])
    (by decide)
